import Mathlib

/-!
Verification of the tracing middleware layer (package `tracing`, files
`src/tracing/tracing.go` and `src/unnamed/part_000`).

The Go code is a thin adaptation layer over the OpenTracing/Jaeger client:
it extracts a span context from inbound HTTP headers, starts spans, attaches
string/bool tags, and finishes the span when the request or query completes.
The embedding below models the observable behaviour of each adapter as pure
functions: external collaborators (the global tracer's Extract result, the
jaeger type assertion on a span context, the result of `NewTracer`) are
passed in as explicit parameters, and the side effects performed on a span
are recorded as an ordered list of span operations.
-/

namespace Tracing

/-- Value attached to a span tag (`SetTag` takes string and bool values in
this codebase). -/
inductive TagValue where
  | str (s : String)
  | bool (b : Bool)
  deriving DecidableEq

/-- One observable operation performed on a span, in program order. -/
inductive SpanOp where
  | setTag (key : String) (v : TagValue)
  | finish
  deriving DecidableEq

/-- Go `context.Context` values as built by this layer: a base context, a
context returned by `opentracing.StartSpanFromContext` (carrying the started
span), or a context extended by `log.NewContext` with one structured-logging
field. -/
inductive Context where
  | base (id : Nat)
  | withSpan (parent : Context) (spanName : String)
  | withLogField (parent : Context) (key : String) (value : String)
  deriving DecidableEq

/-- Whether the operation list contains a `SetTag` for the given key,
with any value. -/
def setsTagKey (ops : List SpanOp) (key : String) : Bool :=
  ops.any fun op =>
    match op with
    | SpanOp.setTag k _ => k == key
    | SpanOp.finish => false

/-- Result of the end-hook `mwEnd` returned by `SQLMiddleware`
(`src/unnamed/part_000` lines 92-98): the returned context and error, and
the operations performed on the captured span during the call.  In the
source the body runs under `defer span.Finish()`, so the conditional
`error` tag is recorded before the final `Finish`. -/
structure SQLEndResult where
  ctx : Context
  err : Option String
  spanOps : List SpanOp

/-- Result of `SQLMiddleware` (`src/unnamed/part_000` lines 83-99): the
returned span context, end-hook and error, together with the name and the
start-time tags of the span it started (observations of the span state,
not return values of the Go function). -/
structure SQLStart where
  spanCtx : Context
  mwEnd : Context → String → String → Option String → SQLEndResult
  err : Option String
  spanName : String
  startTags : List (String × TagValue)

/-- Embedding of `SQLMiddleware` (`src/unnamed/part_000` lines 83-99).
Go's `queryErr error` is `Option String` (`none` is a nil error); the
variadic `args ...interface{}` parameters are unused by the source and are
omitted.  `fmt.Sprintf("%s_%s", spanName, queryName)` is string
concatenation. -/
def SQLMiddleware (ctx : Context) (queryName query : String) : SQLStart :=
  let spanName := "db"
  let spanName := if queryName ≠ "" then spanName ++ "_" ++ queryName else spanName
  let spanCtx := Context.withSpan ctx spanName
  let startTags :=
    [("component", TagValue.str "tracing"),
     ("db.type", TagValue.str "sql"),
     ("db.statement", TagValue.str query)]
  let mwEnd := fun (ctx : Context) (_queryName _query : String) (queryErr : Option String) =>
    { ctx := ctx
      err := none
      spanOps :=
        (if queryErr.isSome then [SpanOp.setTag "error" (TagValue.bool true)] else [])
          ++ [SpanOp.finish] : SQLEndResult }
  { spanCtx := spanCtx, mwEnd := mwEnd, err := none,
    spanName := spanName, startTags := startTags }

/-- C2: for every SQL invocation through SQLMiddleware, a non-empty query
name `q` yields span name `"db_" ++ q`, and an empty query name yields span
name `"db"`. -/
theorem c2_sql_span_name (ctx : Context) (queryName query : String) :
    (queryName ≠ "" → (SQLMiddleware ctx queryName query).spanName = "db_" ++ queryName) ∧
    (queryName = "" → (SQLMiddleware ctx queryName query).spanName = "db") := by
  constructor
  · intro h
    simp only [SQLMiddleware, if_pos h]
    rfl
  · intro h
    simp [SQLMiddleware, h]

/-- Witness for C2 at the concrete query names "fetch_user" and "". -/
theorem c2_sql_span_name_witness :
    (SQLMiddleware (Context.base 0) "fetch_user" "SELECT 1").spanName = "db_fetch_user" ∧
    (SQLMiddleware (Context.base 0) "" "SELECT 1").spanName = "db" :=
  ⟨(c2_sql_span_name (Context.base 0) "fetch_user" "SELECT 1").1 (by decide),
   (c2_sql_span_name (Context.base 0) "" "SELECT 1").2 rfl⟩

/-- C3: the end-hook returned by SQLMiddleware tags the span `error=true`
exactly when its query-error argument is non-nil, and sets no `error` tag at
all when the query error is nil. -/
theorem c3_sql_end_error_tag (ctx ctx2 : Context) (qn q qn2 q2 : String) (e : Option String) :
    (SpanOp.setTag "error" (TagValue.bool true)
        ∈ ((SQLMiddleware ctx qn q).mwEnd ctx2 qn2 q2 e).spanOps ↔ e.isSome = true) ∧
    (setsTagKey ((SQLMiddleware ctx qn q).mwEnd ctx2 qn2 q2 e).spanOps "error" = true
        ↔ e.isSome = true) := by
  cases e <;> simp [SQLMiddleware, setsTagKey]

/-- C6: every invocation of the end-hook finishes the span exactly once,
with the finish as the last operation, so every tag mutation performed by
the end-hook precedes the finish. -/
theorem c6_sql_end_finishes_once (ctx ctx2 : Context) (qn q qn2 q2 : String) (e : Option String) :
    (((SQLMiddleware ctx qn q).mwEnd ctx2 qn2 q2 e).spanOps.count SpanOp.finish = 1) ∧
    (((SQLMiddleware ctx qn q).mwEnd ctx2 qn2 q2 e).spanOps.getLast? = some SpanOp.finish) := by
  cases e <;> simp [SQLMiddleware, List.count_cons, List.getLast?]

/-- C7: SQLMiddleware always returns a nil error, and its end-hook always
returns a nil error together with exactly the context value it was given. -/
theorem c7_sql_nil_errors (ctx ctx2 : Context) (qn q qn2 q2 : String) (e : Option String) :
    (SQLMiddleware ctx qn q).err = none ∧
    ((SQLMiddleware ctx qn q).mwEnd ctx2 qn2 q2 e).err = none ∧
    ((SQLMiddleware ctx qn q).mwEnd ctx2 qn2 q2 e).ctx = ctx2 :=
  ⟨rfl, rfl, rfl⟩

/-- Model of `writer.StatusRecorder` as the finish hooks observe it: the
recorded HTTP status code (Go `int`) at the time the hook runs. -/
structure StatusRecorder where
  statusCode : Int
  deriving DecidableEq

/-- Go `strconv.Itoa`: decimal-string rendering of an integer. -/
def strconvItoa (i : Int) : String := toString i

/-- Go `http.StatusInternalServerError`. -/
def StatusInternalServerError : Int := 500

/-- A span context extracted from inbound carrier headers (the non-nil
result of `opentracing.GlobalTracer().Extract`). -/
structure WireContext where
  id : Nat
  deriving DecidableEq

/-- A `jaeger.SpanContext`, as recovered by the type assertion
`span.Context().(jaeger.SpanContext)`; `traceID` is `sc.TraceID().String()`. -/
structure JaegerSpanContext where
  traceID : String
  deriving DecidableEq

/-- Start options built by `ext.RPCServerOption(wireContext)`: a child-of
reference to the extracted context (absent when extraction failed) plus the
`span.kind=server` tag. -/
structure StartSpanOptions where
  parent : Option WireContext
  tags : List (String × TagValue)
  deriving DecidableEq

/-- Embedding of `ext.RPCServerOption`. -/
def RPCServerOption (client : Option WireContext) : StartSpanOptions :=
  { parent := client, tags := [("span.kind", TagValue.str "server")] }

/-- Observable state of the HTTP span right after the start-time tagging:
its name, its parent reference, and its tags in program order. -/
structure SpanState where
  name : String
  parent : Option WireContext
  tags : List (String × TagValue)
  deriving DecidableEq

/-- Severity of a log line emitted by this layer. -/
inductive LogLevel where
  | debug
  | info
  | error
  deriving DecidableEq

/-- One log line: severity and message. -/
structure LogEvent where
  level : LogLevel
  msg : String
  deriving DecidableEq

/-- The parts of an inbound `*http.Request` the middlewares read: the
method, `r.URL.String()`, the matched route template returned by
`writer.FetchRoutePathTemplate(r)`, and `r.Context()`. -/
structure HTTPRequest where
  method : String
  url : String
  routeTemplate : String
  ctx : Context
  deriving DecidableEq

/-- Everything a call to `Middleware`/`HTTPMiddleware` does apart from
invoking the finish closure: the log lines emitted, the started span's
state, the structured-logging field embedded by the jaeger branch (key and
value), the context carried by the returned request, and the returned
finish closure, a function of the status recorder's state when invoked. -/
structure MiddlewareResult where
  logs : List LogEvent
  span : SpanState
  loggingField : Option (String × String)
  requestCtx : Context
  finish : StatusRecorder → List SpanOp

/-- Embedding of the finish closure returned by `Middleware`
(`src/tracing/tracing.go` lines 127-133): tags `http.status_code` with the
decimal rendering of the recorded status, tags `error=true` when the status
is at least `http.StatusInternalServerError`, then finishes the span. -/
def MiddlewareFinish (sr : StatusRecorder) : List SpanOp :=
  [SpanOp.setTag "http.status_code" (TagValue.str (strconvItoa sr.statusCode))]
    ++ (if sr.statusCode ≥ StatusInternalServerError
        then [SpanOp.setTag "error" (TagValue.bool true)] else [])
    ++ [SpanOp.finish]

/-- Embedding of the finish closure returned by `HTTPMiddleware`
(`src/unnamed/part_000` lines 63-69); textually identical to the one in
`src/tracing/tracing.go`. -/
def HTTPMiddlewareFinish (sr : StatusRecorder) : List SpanOp :=
  [SpanOp.setTag "http.status_code" (TagValue.str (strconvItoa sr.statusCode))]
    ++ (if sr.statusCode ≥ StatusInternalServerError
        then [SpanOp.setTag "error" (TagValue.bool true)] else [])
    ++ [SpanOp.finish]

/-- Embedding of `Middleware` (`src/tracing/tracing.go` lines 108-135).
External behaviour is passed in explicitly: `extractResult` is the result
of `opentracing.GlobalTracer().Extract` on the request headers (`none` is
the error case, in which Go leaves `wireContext` nil), and `scAssert` is
the result of the `span.Context().(jaeger.SpanContext)` type assertion. -/
def Middleware (r : HTTPRequest) (extractResult : Option WireContext)
    (scAssert : Option JaegerSpanContext) : MiddlewareResult :=
  let wireContext := extractResult
  let logs :=
    match extractResult with
    | none => [LogEvent.mk LogLevel.debug
        "failed to extract opentracing context on an incoming http request"]
    | some _ => []
  let opts := RPCServerOption wireContext
  let span : SpanState :=
    { name := r.routeTemplate
      parent := opts.parent
      tags := opts.tags ++
        [("http.method", TagValue.str r.method), ("http.url", TagValue.str r.url)] }
  let spanCtx := Context.withSpan r.ctx span.name
  match scAssert with
  | some sc =>
      { logs := logs, span := span
        loggingField := some ("trace_id", sc.traceID)
        requestCtx := Context.withLogField spanCtx "trace_id" sc.traceID
        finish := MiddlewareFinish }
  | none =>
      { logs := logs, span := span
        loggingField := none
        requestCtx := spanCtx
        finish := MiddlewareFinish }

/-- Embedding of `HTTPMiddleware` (`src/unnamed/part_000` lines 44-71).
Identical to `Middleware` except that the trace identifier is embedded in
the logging context under the field name "correlation_id" instead of
"trace_id". -/
def HTTPMiddleware (r : HTTPRequest) (extractResult : Option WireContext)
    (scAssert : Option JaegerSpanContext) : MiddlewareResult :=
  let wireContext := extractResult
  let logs :=
    match extractResult with
    | none => [LogEvent.mk LogLevel.debug
        "failed to extract opentracing context on an incoming http request"]
    | some _ => []
  let opts := RPCServerOption wireContext
  let span : SpanState :=
    { name := r.routeTemplate
      parent := opts.parent
      tags := opts.tags ++
        [("http.method", TagValue.str r.method), ("http.url", TagValue.str r.url)] }
  let spanCtx := Context.withSpan r.ctx span.name
  match scAssert with
  | some sc =>
      { logs := logs, span := span
        loggingField := some ("correlation_id", sc.traceID)
        requestCtx := Context.withLogField spanCtx "correlation_id" sc.traceID
        finish := HTTPMiddlewareFinish }
  | none =>
      { logs := logs, span := span
        loggingField := none
        requestCtx := spanCtx
        finish := HTTPMiddlewareFinish }

/-- Number of context constructors stacked on the base context; used to see
that the middlewares return an augmented (hence different) context. -/
def ctxDepth : Context → Nat
  | Context.base _ => 0
  | Context.withSpan parent _ => ctxDepth parent + 1
  | Context.withLogField parent _ _ => ctxDepth parent + 1

/-- C1: for every inbound HTTP request, the finish closure returned by the
inbound HTTP span adapters (`Middleware` and `HTTPMiddleware`) tags the span
with `http.status_code` equal to the decimal-string rendering of the status
code read from the status recorder, tags `error=true` exactly when that
status code is at least 500, and sets no `error` tag at all for status codes
below 500. -/
theorem c1_http_finish_tags (sr : StatusRecorder) :
    (SpanOp.setTag "http.status_code" (TagValue.str (strconvItoa sr.statusCode))
        ∈ MiddlewareFinish sr) ∧
    (SpanOp.setTag "error" (TagValue.bool true) ∈ MiddlewareFinish sr ↔ sr.statusCode ≥ 500) ∧
    (setsTagKey (MiddlewareFinish sr) "error" = true ↔ sr.statusCode ≥ 500) ∧
    (SpanOp.setTag "http.status_code" (TagValue.str (strconvItoa sr.statusCode))
        ∈ HTTPMiddlewareFinish sr) ∧
    (SpanOp.setTag "error" (TagValue.bool true) ∈ HTTPMiddlewareFinish sr
        ↔ sr.statusCode ≥ 500) ∧
    (setsTagKey (HTTPMiddlewareFinish sr) "error" = true ↔ sr.statusCode ≥ 500) ∧
    (∀ r e sc, (Middleware r e sc).finish = MiddlewareFinish) ∧
    (∀ r e sc, (HTTPMiddleware r e sc).finish = HTTPMiddlewareFinish) := by
  have hM : ∀ (r : HTTPRequest) (e : Option WireContext) (sc : Option JaegerSpanContext),
      (Middleware r e sc).finish = MiddlewareFinish := fun r e sc => by cases sc <;> rfl
  have hH : ∀ (r : HTTPRequest) (e : Option WireContext) (sc : Option JaegerSpanContext),
      (HTTPMiddleware r e sc).finish = HTTPMiddlewareFinish := fun r e sc => by cases sc <;> rfl
  by_cases h : (500 : Int) ≤ sr.statusCode <;>
    simp [MiddlewareFinish, HTTPMiddlewareFinish, setsTagKey, StatusInternalServerError,
      ge_iff_le, h, hM, hH]

/-- C5: for every inbound request whose header extraction fails (the
extraction result is nil), both adapters log at debug level, start the span
with no parent reference, and still return an augmented request context
(and, being total functions, a finish closure); no error is raised or
propagated. -/
theorem c5_extraction_failure_degrades (r : HTTPRequest) (sc : Option JaegerSpanContext) :
    (Middleware r none sc).logs = [LogEvent.mk LogLevel.debug
      "failed to extract opentracing context on an incoming http request"] ∧
    (Middleware r none sc).span.parent = none ∧
    (Middleware r none sc).requestCtx ≠ r.ctx ∧
    (HTTPMiddleware r none sc).logs = [LogEvent.mk LogLevel.debug
      "failed to extract opentracing context on an incoming http request"] ∧
    (HTTPMiddleware r none sc).span.parent = none ∧
    (HTTPMiddleware r none sc).requestCtx ≠ r.ctx := by
  cases sc <;>
    refine ⟨rfl, rfl, fun h => ?_, rfl, rfl, fun h => ?_⟩ <;>
    · have hd := congrArg ctxDepth h
      simp only [Middleware, HTTPMiddleware, ctxDepth] at hd
      omega

/-- Witness for C5 at a concrete request with failed extraction. -/
theorem c5_extraction_failure_degrades_witness :
    (Middleware (HTTPRequest.mk "GET" "/widgets/42" "/widgets" (Context.base 0))
      none none).span.parent = none :=
  (c5_extraction_failure_degrades
    (HTTPRequest.mk "GET" "/widgets/42" "/widgets" (Context.base 0)) none).2.1

/-- C9, counterexample to full equivalence: at a concrete request whose span
context passes the jaeger type assertion, `Middleware` embeds the trace
identifier under the logging field name "trace_id" while `HTTPMiddleware`
embeds it under "correlation_id", so the two adapters do not use the same
field name. -/
theorem c9_field_name_counterexample :
    (Middleware (HTTPRequest.mk "GET" "/widgets/42" "/widgets" (Context.base 0))
        none (some (JaegerSpanContext.mk "abc"))).loggingField ≠
    (HTTPMiddleware (HTTPRequest.mk "GET" "/widgets/42" "/widgets" (Context.base 0))
        none (some (JaegerSpanContext.mk "abc"))).loggingField := by
  decide

/-- C9, amended: for every inbound request, extraction result and jaeger
assertion result, `Middleware` and `HTTPMiddleware` create spans with the
same name, parent and start-time tags, emit the same log lines, have
finish closures with identical behaviour, and embed the same trace
identifier value in the logging context — but under different field names:
`Middleware` uses "trace_id" and `HTTPMiddleware` uses "correlation_id". -/
theorem c9_middleware_equiv_up_to_field_name (r : HTTPRequest)
    (e : Option WireContext) (sc : Option JaegerSpanContext) :
    (Middleware r e sc).span = (HTTPMiddleware r e sc).span ∧
    (Middleware r e sc).logs = (HTTPMiddleware r e sc).logs ∧
    (∀ sr, (Middleware r e sc).finish sr = (HTTPMiddleware r e sc).finish sr) ∧
    (Middleware r e sc).loggingField.map Prod.snd
      = (HTTPMiddleware r e sc).loggingField.map Prod.snd ∧
    (Middleware r e sc).loggingField.map Prod.fst = sc.map (fun _ => "trace_id") ∧
    (HTTPMiddleware r e sc).loggingField.map Prod.fst = sc.map (fun _ => "correlation_id") := by
  cases sc <;>
    simp [Middleware, HTTPMiddleware, MiddlewareFinish, HTTPMiddlewareFinish]

/-- Embedding of the tracing `Config` struct (`src/tracing/tracing.go`
lines 36-46).  `time.Duration` is an integer nanosecond count. -/
structure Config where
  enabled : Bool
  samplerType : String
  samplerParam : Float
  reporterLogSpans : Bool
  reporterMaxQueueSize : Int
  reporterFlushInterval : Int
  agentHost : String
  agentPort : Int
  serviceName : String

/-- Go `jaeger.SamplerTypeConst`. -/
def SamplerTypeConst : String := "const"

/-- Embedding of `jaegercfg.SamplerConfig` as populated by
`ConfigureTracer`. -/
structure SamplerConfig where
  type : String
  param : Float

/-- Embedding of `jaegercfg.ReporterConfig` as populated by
`ConfigureTracer`. -/
structure ReporterConfig where
  logSpans : Bool
  queueSize : Int
  bufferFlushInterval : Int
  localAgentHostPort : String

/-- Embedding of `jaegercfg.Configuration` as populated by
`ConfigureTracer`. -/
structure JaegerConfiguration where
  serviceName : String
  sampler : SamplerConfig
  reporter : ReporterConfig
  disabled : Bool

/-- An opaque tracer client returned by `jaegerConfig.NewTracer`. -/
structure Tracer where
  id : Nat
  deriving DecidableEq

/-- An opaque `io.Closer` returned by `jaegerConfig.NewTracer`. -/
structure Closer where
  id : Nat
  deriving DecidableEq

/-- Result of the external call `jaegerConfig.NewTracer`: a tracer and its
closer, or a non-nil error. -/
inductive NewTracerResult where
  | ok (tracer : Tracer) (closer : Closer)
  | err (e : String)
  deriving DecidableEq

/-- Process-wide tracer registry: `some t` means `opentracing.SetGlobalTracer`
has installed `t`. -/
structure GlobalState where
  globalTracer : Option Tracer
  deriving DecidableEq

/-- Everything a call to `ConfigureTracer` does: the log lines emitted, the
returned `io.Closer` (`none` models a nil interface value), and the
process-wide tracer state after the call. -/
structure ConfigureTracerOutcome where
  logs : List LogEvent
  returnedCloser : Option Closer
  state : GlobalState

/-- Embedding of the configuration-building part of `ConfigureTracer`
(`src/tracing/tracing.go` lines 50-68): defaulting of the sampler type,
copying of the sampler and reporter options, and `fmt.Sprintf("%s:%d", ...)`
for the agent address. -/
def ConfigureTracer_jaegerConfig (c : Config) : JaegerConfiguration :=
  let samplerType := if c.samplerType = "" then SamplerTypeConst else c.samplerType
  let samplerConfig : SamplerConfig := { type := samplerType, param := c.samplerParam }
  let reporterConfig : ReporterConfig :=
    { logSpans := c.reporterLogSpans
      queueSize := c.reporterMaxQueueSize
      bufferFlushInterval := c.reporterFlushInterval
      localAgentHostPort := c.agentHost ++ ":" ++ toString c.agentPort }
  { serviceName := c.serviceName
    sampler := samplerConfig
    reporter := reporterConfig
    disabled := !c.enabled }

/-- Embedding of `ConfigureTracer` (`src/tracing/tracing.go` lines 49-84).
The external call `jaegerConfig.NewTracer` is passed in as a function of the
configuration built from `c`.  On error the function logs at error severity
and returns Go `nil` (`none`) without touching the global tracer; on success
it logs at info severity, installs the new tracer process-wide and returns
the closer. -/
def ConfigureTracer (c : Config) (newTracer : JaegerConfiguration → NewTracerResult)
    (s : GlobalState) : ConfigureTracerOutcome :=
  match newTracer (ConfigureTracer_jaegerConfig c) with
  | NewTracerResult.err _ =>
      { logs := [LogEvent.mk LogLevel.error "Couldn\x27t initialize Jaeger tracer"]
        returnedCloser := none
        state := s }
  | NewTracerResult.ok tracer closer =>
      { logs := [LogEvent.mk LogLevel.info
          (if !c.enabled then "Jaeger tracer configured but disabled"
           else "Configured Jaeger tracer")]
        returnedCloser := some closer
        state := GlobalState.mk (some tracer) }

/-- Invocation of `Close()` on an `io.Closer` interface value: calling a
method on a nil interface value is a runtime panic in Go, modelled as the
error branch. -/
def closerClose : Option Closer → Except String Unit
  | none => Except.error "invalid memory address or nil pointer dereference"
  | some _ => Except.ok ()

/-- C8: if SamplerType is empty, ConfigureTracer builds the tracer
configuration with the constant-decision sampler type; otherwise the
configured sampler type is the given value; in both cases the sampler
parameter equals SamplerParam. -/
theorem c8_sampler_defaulting (c : Config) :
    (c.samplerType = "" →
      (ConfigureTracer_jaegerConfig c).sampler.type = SamplerTypeConst) ∧
    (c.samplerType ≠ "" →
      (ConfigureTracer_jaegerConfig c).sampler.type = c.samplerType) ∧
    (ConfigureTracer_jaegerConfig c).sampler.param = c.samplerParam :=
  ⟨fun h => by simp [ConfigureTracer_jaegerConfig, h],
   fun h => by simp [ConfigureTracer_jaegerConfig, h],
   rfl⟩

/-- Witness for C8 at an empty and a non-empty sampler type. -/
theorem c8_sampler_defaulting_witness :
    (ConfigureTracer_jaegerConfig
      (Config.mk true "" 0.5 false 100 1000 "localhost" 6831 "svc")).sampler.type
        = SamplerTypeConst ∧
    (ConfigureTracer_jaegerConfig
      (Config.mk true "probabilistic" 0.5 false 100 1000 "localhost" 6831 "svc")).sampler.type
        = "probabilistic" :=
  ⟨(c8_sampler_defaulting
      (Config.mk true "" 0.5 false 100 1000 "localhost" 6831 "svc")).1 rfl,
   (c8_sampler_defaulting
      (Config.mk true "probabilistic" 0.5 false 100 1000 "localhost" 6831 "svc")).2.1
      (by decide)⟩

/-- C4, counterexample to safe release: for a concrete configuration on
which tracer construction fails, ConfigureTracer returns the nil interface
value, and invoking Close on it is a nil-pointer panic, not a safe no-op. -/
theorem c4_nil_closer_counterexample :
    closerClose (ConfigureTracer
        (Config.mk true "" 0.5 false 100 1000 "localhost" 6831 "svc")
        (fun _ => NewTracerResult.err "connection refused")
        (GlobalState.mk none)).returnedCloser
      ≠ Except.ok () :=
  fun h => Except.noConfusion h

/-- C4, amended: for every configuration on which tracer construction
fails, ConfigureTracer logs the error at error severity and returns a nil
release handle rather than terminating the process; invoking release on
that nil handle is however a nil-pointer panic, so it is not safe without a
nil check. -/
theorem c4_construction_failure_nil_closer (c : Config)
    (f : JaegerConfiguration → NewTracerResult) (s : GlobalState) (e : String)
    (h : f (ConfigureTracer_jaegerConfig c) = NewTracerResult.err e) :
    (ConfigureTracer c f s).logs
      = [LogEvent.mk LogLevel.error "Couldn\x27t initialize Jaeger tracer"] ∧
    (ConfigureTracer c f s).returnedCloser = none ∧
    closerClose (ConfigureTracer c f s).returnedCloser
      = Except.error "invalid memory address or nil pointer dereference" := by
  unfold ConfigureTracer
  rw [h]
  exact ⟨rfl, rfl, rfl⟩

/-- Witness for C4 at a concrete failing construction. -/
theorem c4_construction_failure_nil_closer_witness :
    (ConfigureTracer (Config.mk false "const" 1.0 true 200 5000 "agent" 6831 "svc2")
      (fun _ => NewTracerResult.err "boom") (GlobalState.mk none)).returnedCloser = none :=
  (c4_construction_failure_nil_closer
    (Config.mk false "const" 1.0 true 200 5000 "agent" 6831 "svc2")
    (fun _ => NewTracerResult.err "boom") (GlobalState.mk none) "boom" rfl).2.1

/-- C10: the global tracer state is untouched when tracer construction
fails, and holds exactly the newly constructed tracer when construction
succeeds — installation happens if and only if construction succeeds. -/
theorem c10_global_tracer_atomic (c : Config)
    (f : JaegerConfiguration → NewTracerResult) (s : GlobalState) :
    ((∃ e, f (ConfigureTracer_jaegerConfig c) = NewTracerResult.err e) →
      (ConfigureTracer c f s).state = s) ∧
    (∀ t cl, f (ConfigureTracer_jaegerConfig c) = NewTracerResult.ok t cl →
      (ConfigureTracer c f s).state = GlobalState.mk (some t)) := by
  constructor
  · rintro ⟨e, he⟩
    unfold ConfigureTracer
    rw [he]
  · intro t cl h
    unfold ConfigureTracer
    rw [h]

/-- Witness for C10 at a concrete failing construction: the state is
returned unchanged. -/
theorem c10_global_tracer_atomic_witness :
    (ConfigureTracer (Config.mk true "" 0.5 false 100 1000 "localhost" 6831 "svc")
      (fun _ => NewTracerResult.err "no route to host")
      (GlobalState.mk none)).state = GlobalState.mk none :=
  (c10_global_tracer_atomic (Config.mk true "" 0.5 false 100 1000 "localhost" 6831 "svc")
    (fun _ => NewTracerResult.err "no route to host") (GlobalState.mk none)).1
    ⟨"no route to host", rfl⟩

end Tracing
